import Mathlib

/-!
# Verification of the VK2 engine against its specification

Shallow embedding of the VK2 rendering engine (`src/VK2/Core/Engine.cpp`,
`src/unnamed/part_000` = `Engine.h`).  The engine's external collaborators
(SDL, the Vulkan driver, the shaderc compiler, the filesystem) are modelled
as oracles: the values they hand back to the engine are parameters of each
transcription, and the transcriptions follow the C++ control flow statement
by statement.
-/

namespace VK2

/-- Result codes handed back by the Vulkan driver.  Only the distinctions the
claims need are modelled; `Engine::Draw` never inspects any of them. -/
inductive VkResult
  | success
  | timeout
  | errorOutOfDate
  | errorDeviceLost
  deriving DecidableEq

/-- The engine state that `Engine::Draw` reads or writes: the `FrameNumber`
counter (`Engine.h` line 67) and the `Framebuffers` vector (handles modelled
as naturals), sized by `Engine::InitFramebuffers`. -/
structure EngineState where
  frameNumber : Nat
  framebuffers : List Nat
  deriving DecidableEq

/-- The driver's behaviour during one `Engine::Draw` cycle: the result of
`vkWaitForFences`, the result of `vkAcquireNextImageKHR` together with the
value left in `swapchainImageIdx` after that call (on failure the C++
variable is simply whatever the driver left there — it is uninitialized
otherwise), and the result of `vkQueuePresentKHR`. -/
structure DrawOracle where
  waitResult : VkResult
  acquireResult : VkResult
  acquiredIdx : Nat
  presentResult : VkResult
  deriving DecidableEq

/-- The observable calls `Engine::Draw` makes, in program order.  The
`cmdBeginRenderPass` event records the framebuffer lookup
`Framebuffers[swapchainImageIdx]` as an `Option`: `none` means the unchecked
index was out of bounds. -/
inductive DrawEvent
  | waitFences (timeoutNs : Nat) (res : VkResult)
  | resetFences
  | acquireNextImage (timeoutNs : Nat) (res : VkResult) (idx : Nat)
  | resetCommandBuffer
  | beginCommandBuffer
  | cmdBeginRenderPass (framebuffer : Option Nat) (idx : Nat)
  | cmdEndRenderPass
  | endCommandBuffer
  | queueSubmit
  | queuePresent (res : VkResult) (idx : Nat)
  deriving DecidableEq

/-- The per-frame error taxonomy of spec §7.  `Engine::Draw` (lines 340-419)
contains no `throw` and checks no result, so the transcription below never
produces one of these; the type exists so that the spec's fatality claims are
statable. -/
inductive FrameError
  | gpuHangSuspected
  | swapchainAcquireTimeout
  | presentFailure
  deriving DecidableEq

/-- The sequence of driver calls `Engine::Draw` issues, transcribed from
lines 340-419 of `Engine.cpp` in order: wait on `RenderFence` with a
1-second (`1000000000` ns) timeout, reset the fence, acquire the next
swapchain image with the same timeout, reset and begin the command buffer,
begin the render pass on `Framebuffers[swapchainImageIdx]`, end it, end the
buffer, submit, present.  No result is inspected anywhere. -/
def drawEvents (s : EngineState) (o : DrawOracle) : List DrawEvent :=
  [ DrawEvent.waitFences 1000000000 o.waitResult
  , DrawEvent.resetFences
  , DrawEvent.acquireNextImage 1000000000 o.acquireResult o.acquiredIdx
  , DrawEvent.resetCommandBuffer
  , DrawEvent.beginCommandBuffer
  , DrawEvent.cmdBeginRenderPass (s.framebuffers.get? o.acquiredIdx) o.acquiredIdx
  , DrawEvent.cmdEndRenderPass
  , DrawEvent.endCommandBuffer
  , DrawEvent.queueSubmit
  , DrawEvent.queuePresent o.presentResult o.acquiredIdx ]

/-- `Engine::Draw` (lines 340-419).  The function is `void` and contains no
failure path: every Vulkan result is discarded, and `FrameNumber++` runs
unconditionally at the end.  The `Except` layer marks where a `FrameError`
of spec §7 would surface; the transcription never produces one. -/
def Draw (s : EngineState) (o : DrawOracle) :
    Except FrameError (EngineState × List DrawEvent) :=
  Except.ok ({ s with frameNumber := s.frameNumber + 1 }, drawEvents s o)

/-- Iterated draw cycles: one `DrawOracle` per cycle, as driven by
`Engine::Run`'s loop body calling `Draw()`. -/
def DrawRun (s : EngineState) : List DrawOracle → EngineState
  | [] => s
  | o :: os =>
    match Draw s o with
    | Except.ok (s', _) => DrawRun s' os
    | Except.error _ => s

/-- The clear-color computation of `Engine::Draw` lines 361-363:
`float flash = abs(sin(FrameNumber / 120.0f));
clearValue.color = \x7b 0.f, 0.f, flash, 1.f \x7d;` -/
noncomputable def flash (frameNumber : Nat) : ℝ :=
  |Real.sin ((frameNumber : ℝ) / 120)|

/-- The RGBA clear color recorded during a draw cycle.  The oracle argument
is present to make explicit that the computation reads nothing from the
driver (and there is no wall-clock input anywhere in the model): only
`FrameNumber` is read. -/
noncomputable def recordedClearColor (s : EngineState) (_o : DrawOracle) :
    ℝ × ℝ × ℝ × ℝ :=
  (0, 0, flash s.frameNumber, 1)

/-! ## Shader cache (`Engine::LoadShaderModule`, `Engine::CompileGlslToSpv`) -/

/-- A file on disk: its last-write time and its content bytes. -/
structure FsFile where
  mtime : Nat
  content : List Nat
  deriving DecidableEq

/-- The filesystem as seen through `std::filesystem` and the stream classes:
a partial map from paths to files. -/
def FS := String → Option FsFile

/-- Overwrite (or create) the file at `p`. -/
def fsWrite (fs : FS) (p : String) (f : FsFile) : FS :=
  fun q => if q = p then some f else fs q

/-- Failure modes of the shader-loading path, one per `throw` / throwing call
site of `Engine.cpp`:

* `compileFailed p` — `throw std::runtime_error("Failed to compile " + p + " to spv")`
  at line 455, raised whenever `Engine::CompileGlslToSpv` returns `false`
  (the `bool` return conflates a missing source, a compiler diagnostic and
  a write failure);
* `fsError` — `std::filesystem::last_write_time(glslPath)` at line 453
  throws `std::filesystem::filesystem_error` when `glslPath` does not exist;
* `openFailed` — `throw std::runtime_error("Failed to open shader file!")`
  at line 461. -/
inductive ShaderErr
  | compileFailed (glslPath : String)
  | fsError
  | openFailed
  deriving DecidableEq

/-- `Engine::CompileGlslToSpv` (lines 490-534).  The external shaderc
compiler is the oracle `comp`: `none` models a result with
`GetNumErrors() > 0`, `some out` a successful compilation to the words
`out`.  Returns the C++ `bool` result, the filesystem after the call, and
how many times the external compiler was invoked (0 or 1).  `now` is the
write timestamp of the cached artifact.  Control flow transcribed in order:
default-fill `inOutSpvPath`, return `false` if the source does not exist,
read the source, invoke the compiler, return `false` on diagnostics,
overwrite the artifact, return `true`.  (The model's filesystem has no
spurious open/write failures: a file that exists can be read, and writes
succeed, matching a quiescent single-threaded disk.) -/
def CompileGlslToSpv (fs : FS) (comp : List Nat → Option (List Nat))
    (now : Nat) (glslPath : String) (inOutSpvPath : Option String) :
    Bool × FS × Nat :=
  let spvPath := inOutSpvPath.getD (glslPath ++ ".spv")
  match fs glslPath with
  | none => (false, fs, 0)
  | some src =>
    match comp src.content with
    | none => (false, fs, 1)
    | some out => (true, fsWrite fs spvPath { mtime := now, content := out }, 1)

/-- The tail of `Engine::LoadShaderModule` taken on the recompile branch
(lines 454-471): call `CompileGlslToSpv`, throw on `false`, then open and
read the `.spv` artifact. -/
def recompileAndRead (fs : FS) (comp : List Nat → Option (List Nat))
    (now : Nat) (glslPath spvPath : String) :
    Except ShaderErr (FS × List Nat) × Nat :=
  match CompileGlslToSpv fs comp now glslPath (some spvPath) with
  | (false, _, k) => (Except.error (ShaderErr.compileFailed glslPath), k)
  | (true, fs₁, k) =>
    match fs₁ spvPath with
    | none => (Except.error ShaderErr.openFailed, k)
    | some f => (Except.ok (fs₁, f.content), k)

/-- `Engine::LoadShaderModule` (lines 447-486), the spec's
`ensure_compiled`: result is the filesystem after the call and the bytes
handed to `vkCreateShaderModule`, paired with the number of external
compiler invocations.  Transcribing the staleness test of lines 452-453,
`!exists(spvPath) || last_write_time(glslPath) > last_write_time(spvPath)`:
the `||` short-circuits, so `last_write_time(glslPath)` — which throws when
the source is missing — is only evaluated when the artifact exists. -/
def LoadShaderModule (fs : FS) (comp : List Nat → Option (List Nat))
    (now : Nat) (glslPath : String) :
    Except ShaderErr (FS × List Nat) × Nat :=
  let spvPath := glslPath ++ ".spv"
  match fs spvPath with
  | none => recompileAndRead fs comp now glslPath spvPath
  | some spvF =>
    match fs glslPath with
    | none => (Except.error ShaderErr.fsError, 0)
    | some glslF =>
      if glslF.mtime > spvF.mtime then
        recompileAndRead fs comp now glslPath spvPath
      else
        (Except.ok (fs, spvF.content), 0)

/-! ## Framebuffer construction (`Engine::InitFramebuffers`) -/

/-- The loop body of `Engine::InitFramebuffers` (lines 271-275) over the
remaining indices: `okRes i` is whether `vkCreateFramebuffer` succeeds for
index `i`.  On the first failure the function throws
`"Failed to create a framebuffer"`; the throwing path performs no
`vkDestroyFramebuffer` whatsoever, so only the created handles are
accumulated. -/
def fbGo (okRes : Nat → Bool) (created : List Nat) :
    List Nat → Except String (List Nat) × List Nat
  | [] => (Except.ok created, created)
  | i :: rest =>
    if okRes i then fbGo okRes (created ++ [i]) rest
    else (Except.error "Failed to create a framebuffer", created)

/-- `Engine::InitFramebuffers` (lines 254-276): `Framebuffers` is resized to
`SwapchainImages.size()` (= `n`) and one `vkCreateFramebuffer` is attempted
per index in order.  Result: the thrown-or-returned outcome, the list of
framebuffer indices actually created, and the list of framebuffers destroyed
on the way out — the source destroys none, in either outcome. -/
def initFramebuffers (n : Nat) (okRes : Nat → Bool) :
    Except String (List Nat) × List Nat × List Nat :=
  let r := fbGo okRes [] (List.range n)
  (r.1, r.2, [])

/-! ## Event loop and process lifecycle (`Engine::Run`, `Engine::Exec`) -/

/-- An SDL event as classified by the `switch` in `Engine::Run`:
`SDL_QUIT` or anything else. -/
inductive SDLEvent
  | quit
  | other
  deriving DecidableEq

/-- Whether an iteration's drained event batch contains `SDL_QUIT`; the
inner `while (SDL_PollEvent(&e))` loop of lines 429-439 sets
`stillRunning = false` exactly when it does. -/
def containsQuit (batch : List SDLEvent) : Bool :=
  batch.any fun e => decide (e = SDLEvent.quit)

/-- `Engine::Run` (lines 423-443).  The input is the sequence of event
batches the poll loop drains, one batch per outer-loop iteration.  Each
iteration drains its batch (possibly clearing `stillRunning`), then calls
`Draw()` unconditionally, then re-tests `stillRunning` at the loop head.
Returns `some n` — the total number of `Draw()` calls — when the loop exits
within the given batches, and `none` when the modelled input is exhausted
with the loop still running. -/
def runLoop : List (List SDLEvent) → Option Nat
  | [] => none
  | batch :: rest =>
    if containsQuit batch then some 1
    else
      match runLoop rest with
      | none => none
      | some k => some (k + 1)

/-- The outcomes `Engine::Exec` can observe from its callees: whether
`Initialize()` throws (and with which message), the event batches feeding
`Run()`, and whether `Cleanup()` throws. -/
structure ExecInput where
  initResult : Option String
  eventBatches : List (List SDLEvent)
  cleanupResult : Option String
  deriving DecidableEq

/-- What a finished `Engine::Exec` looks like: the returned exit code, the
diagnostic lines printed to the console stream (`std::cout << e.what()`),
whether `Cleanup()` was invoked, and how many `Draw()` calls ran. -/
structure ExecResult where
  exitCode : Nat
  consoleLog : List String
  cleanupInvoked : Bool
  drawCalls : Option Nat
  deriving DecidableEq

/-- `Engine::Exec` (lines 77-95): `Initialize()` inside a `try` — a throw is
printed and `Exec` returns 1 without running the loop or `Cleanup()`; then
`Run()` (outside any `try`; `Run` and `Draw` contain no throw); then
`Cleanup()` inside a `try` — a throw is printed and `Exec` returns 1;
otherwise `Exec` returns 0.  The result is `none` when the event loop has
not exited within the modelled input. -/
def Exec (inp : ExecInput) : Option ExecResult :=
  match inp.initResult with
  | some msg => some { exitCode := 1, consoleLog := [msg], cleanupInvoked := false, drawCalls := none }
  | none =>
    match runLoop inp.eventBatches with
    | none => none
    | some draws =>
      match inp.cleanupResult with
      | some msg => some { exitCode := 1, consoleLog := [msg], cleanupInvoked := true, drawCalls := some draws }
      | none => some { exitCode := 0, consoleLog := [], cleanupInvoked := true, drawCalls := some draws }

/-! ## Resource creation and destruction order (`Engine::Initialize`,
`Engine::Cleanup`) -/

/-- Every handle the initialization sequence creates.  Per-image resources
carry their index; `shaderModule 0` and `shaderModule 1` are the two modules
`Engine::InitPipelines` loads.  (The physical-device and queue handles are
views, not created objects, and the swapchain images are owned by the
swapchain; none of those are separate create/destroy pairs.) -/
inductive Res
  | win
  | inst
  | debugMsgr
  | surface
  | device
  | swapchain
  | imageView (i : Nat)
  | cmdPool
  | cmdBuf
  | renderPass
  | framebuffer (i : Nat)
  | fence
  | presentSem
  | renderSem
  | shaderModule (i : Nat)
  deriving DecidableEq

/-- The creation order of a fully successful `Engine::Initialize`
(lines 99-127) with `n` swapchain images, following the call sequence
`SDL_CreateWindow`, `InitVulkan` (instance, debug messenger, surface,
device), `InitSwapchain` (swapchain, then its image views), `InitCommands`
(pool, buffer), `InitDefaultRenderpass`, `InitFramebuffers`,
`InitSyncStructures` (fence, present semaphore, render semaphore),
`InitPipelines` (two shader modules). -/
def initOrder (n : Nat) : List Res :=
  [Res.win, Res.inst, Res.debugMsgr, Res.surface, Res.device, Res.swapchain]
    ++ (List.range n).map (fun i => Res.imageView i)
    ++ [Res.cmdPool, Res.cmdBuf, Res.renderPass]
    ++ (List.range n).map (fun i => Res.framebuffer i)
    ++ [Res.fence, Res.presentSem, Res.renderSem, Res.shaderModule 0, Res.shaderModule 1]

/-- The destruction order of `Engine::Cleanup` (lines 312-336):
nothing at all when `IsInitialized` is still false (the guard at line 313);
otherwise command pool, swapchain, render pass, then per image index the
framebuffer and its image view interleaved, then device, surface, debug
messenger, instance, window.  The fence, the two semaphores and the two
shader modules are never destroyed anywhere in the source. -/
def cleanupOrder (isInitDone : Bool) (n : Nat) : List Res :=
  if isInitDone then
    [Res.cmdPool, Res.swapchain, Res.renderPass]
      ++ (List.range n).flatMap (fun i => [Res.framebuffer i, Res.imageView i])
      ++ [Res.device, Res.surface, Res.debugMsgr, Res.inst, Res.win]
  else []

/-! ## Theorems -/

/-- C1, counterexample.  The claim: a fence wait that does not observe the
fence signaled within the 1-second timeout makes the cycle fail fatally
with `GpuHangSuspected`, and no further draw cycles occur.  At the concrete
state `frameNumber = 0`, `framebuffers = [0]` and an oracle whose
`vkWaitForFences` returns `VK_TIMEOUT`, `Engine::Draw` raises no error at
all — it completes normally (the wait result is discarded) — and a second
cycle runs right after, taking `FrameNumber` to 2.  So the claim, as
stated, is false. -/
theorem c1_counterexample :
    Draw { frameNumber := 0, framebuffers := [0] }
        { waitResult := VkResult.timeout, acquireResult := VkResult.success
          , acquiredIdx := 0, presentResult := VkResult.success }
      ≠ Except.error FrameError.gpuHangSuspected
    ∧ Draw { frameNumber := 0, framebuffers := [0] }
        { waitResult := VkResult.timeout, acquireResult := VkResult.success
          , acquiredIdx := 0, presentResult := VkResult.success }
      = Except.ok ({ frameNumber := 1, framebuffers := [0] },
          drawEvents { frameNumber := 0, framebuffers := [0] }
            { waitResult := VkResult.timeout, acquireResult := VkResult.success
              , acquiredIdx := 0, presentResult := VkResult.success })
    ∧ (DrawRun { frameNumber := 0, framebuffers := [0] }
        [ { waitResult := VkResult.timeout, acquireResult := VkResult.success
            , acquiredIdx := 0, presentResult := VkResult.success }
        , { waitResult := VkResult.timeout, acquireResult := VkResult.success
            , acquiredIdx := 0, presentResult := VkResult.success } ]).frameNumber = 2 := by
  refine ⟨?_, rfl, rfl⟩
  intro h
  exact nomatch h

/-- C1, amended.  `Engine::Draw` blocks on `RenderFence` with a bounded
1-second (1000000000 ns) timeout and resets the fence immediately after the
wait call returns, before any reuse (the reset is the very next driver
call); however the wait's result is ignored, so a timeout is not fatal — no
`GpuHangSuspected` (or any other) error is ever raised and the cycle, and
further cycles, proceed normally. -/
theorem c1_amended_fence_wait :
    ∀ (s : EngineState) (o : DrawOracle),
      Draw s o = Except.ok ({ s with frameNumber := s.frameNumber + 1 }, drawEvents s o)
      ∧ (drawEvents s o).take 2
          = [DrawEvent.waitFences 1000000000 o.waitResult, DrawEvent.resetFences] :=
  fun _ _ => ⟨rfl, rfl⟩

/-- C2, counterexample.  The claim: `FrameNumber` increments only after a
fully successful present, and a cycle whose present fails leaves it
unchanged.  At the concrete fresh state and an oracle whose
`vkQueuePresentKHR` returns an error, the drawn trace does contain the
failing present call, yet `FrameNumber` is 1 afterwards, not 0: the
increment at line 418 runs unconditionally.  So the claim, as stated, is
false. -/
theorem c2_counterexample :
    DrawEvent.queuePresent VkResult.errorOutOfDate 0
      ∈ drawEvents { frameNumber := 0, framebuffers := [0] }
          { waitResult := VkResult.success, acquireResult := VkResult.success
            , acquiredIdx := 0, presentResult := VkResult.errorOutOfDate }
    ∧ (DrawRun { frameNumber := 0, framebuffers := [0] }
        [ { waitResult := VkResult.success, acquireResult := VkResult.success
            , acquiredIdx := 0, presentResult := VkResult.errorOutOfDate } ]).frameNumber = 1
    ∧ (1 : Nat) ≠ 0 := by
  refine ⟨?_, rfl, one_ne_zero⟩
  simp [drawEvents]

/-- C2, amended.  `FrameNumber` increments exactly once per `Engine::Draw`
cycle, unconditionally — the result of the present call is ignored, so a
failing present increments it too; consequently, after any sequence of N
draw cycles starting from a fresh engine, `FrameNumber` equals N. -/
theorem c2_amended_frame_counter :
    (∀ (s : EngineState) (o : DrawOracle),
      Draw s o = Except.ok ({ s with frameNumber := s.frameNumber + 1 }, drawEvents s o))
    ∧ (∀ (fbs : List Nat) (os : List DrawOracle),
      (DrawRun { frameNumber := 0, framebuffers := fbs } os).frameNumber = os.length) := by
  constructor
  · intro s o
    rfl
  · have key : ∀ (os : List DrawOracle) (s : EngineState),
        (DrawRun s os).frameNumber = s.frameNumber + os.length := by
      intro os
      induction os with
      | nil => intro s; simp [DrawRun]
      | cons o os ih =>
        intro s
        show (DrawRun { s with frameNumber := s.frameNumber + 1 } os).frameNumber = _
        rw [ih]
        simp
        omega
    intro fbs os
    simpa using key os { frameNumber := 0, framebuffers := fbs }

/-- C7 (confirmed).  The clear color recorded in each draw cycle is a
deterministic pure function of `FrameNumber` alone: the channel values are
`(0, 0, |sin(frameNumber / 120)|, 1)` — the blue channel carries the
sinusoid, red, green and alpha are held constant — and two cycles at the
same `FrameNumber` record the same color whatever the driver (or any other
environment input) does. -/
theorem c7_clear_color_pure (s₁ s₂ : EngineState) (o₁ o₂ : DrawOracle)
    (h : s₁.frameNumber = s₂.frameNumber) :
    recordedClearColor s₁ o₁ = recordedClearColor s₂ o₂
    ∧ recordedClearColor s₁ o₁
        = (0, 0, |Real.sin ((s₁.frameNumber : ℝ) / 120)|, 1) := by
  constructor
  · simp [recordedClearColor, h]
  · rfl

/-- Witness for `c7_clear_color_pure` at `frameNumber = 5` with two
different framebuffer lists and two different oracles. -/
theorem c7_clear_color_pure_witness :
    ({ frameNumber := 5, framebuffers := [] } : EngineState).frameNumber
      = ({ frameNumber := 5, framebuffers := [0, 1] } : EngineState).frameNumber
    ∧ recordedClearColor { frameNumber := 5, framebuffers := [] }
        { waitResult := VkResult.success, acquireResult := VkResult.success
          , acquiredIdx := 0, presentResult := VkResult.success }
      = recordedClearColor { frameNumber := 5, framebuffers := [0, 1] }
          { waitResult := VkResult.timeout, acquireResult := VkResult.timeout
            , acquiredIdx := 7, presentResult := VkResult.errorOutOfDate } :=
  ⟨rfl,
    (c7_clear_color_pure { frameNumber := 5, framebuffers := [] }
      { frameNumber := 5, framebuffers := [0, 1] }
      { waitResult := VkResult.success, acquireResult := VkResult.success
        , acquiredIdx := 0, presentResult := VkResult.success }
      { waitResult := VkResult.timeout, acquireResult := VkResult.timeout
        , acquiredIdx := 7, presentResult := VkResult.errorOutOfDate } rfl).1⟩

/-- A stub external compiler used by concrete witnesses: always succeeds,
producing the words `[7, 8]`. -/
def compStub : List Nat → Option (List Nat) := fun _ => some [7, 8]

/-- A filesystem holding source `"a"` (mtime 3) and a cached artifact
`"a.spv"` (mtime 5, not older than the source). -/
def fsFresh : FS := fun p =>
  if p = "a" then some { mtime := 3, content := [1, 2] }
  else if p = "a.spv" then some { mtime := 5, content := [9, 9] }
  else none

/-- A filesystem holding source `"b"` (mtime 3) and no cached artifact. -/
def fsNoCache : FS := fun p =>
  if p = "b" then some { mtime := 3, content := [1, 2] } else none

/-- A filesystem holding source `"c"` (mtime 9) and a strictly older cached
artifact `"c.spv"` (mtime 5). -/
def fsStale : FS := fun p =>
  if p = "c" then some { mtime := 9, content := [1, 2] }
  else if p = "c.spv" then some { mtime := 5, content := [4] }
  else none

/-- A filesystem holding only an orphaned artifact `"m.spv"`; the source
`"m"` is missing. -/
def fsOrphan : FS := fun p =>
  if p = "m.spv" then some { mtime := 1, content := [2] } else none

/-- C4 (confirmed).  `Engine::LoadShaderModule` (the spec's
`ensure_compiled`): when the cached artifact at `sourcePath + ".spv"`
exists and is not older than the source, zero compiler invocations happen
and the returned bytes are exactly the cached artifact's, with the
filesystem untouched; when there is no cached artifact, or the source is
strictly newer, exactly one compiler invocation happens, the artifact is
overwritten with the compilation result, and that result is returned. -/
theorem c4_shader_cache (fs : FS) (comp : List Nat → Option (List Nat))
    (now : Nat) (glslPath : String) (g : FsFile) (out : List Nat) :
    (∀ c : FsFile, fs glslPath = some g → fs (glslPath ++ ".spv") = some c →
      g.mtime ≤ c.mtime →
      LoadShaderModule fs comp now glslPath = (Except.ok (fs, c.content), 0))
    ∧ (fs glslPath = some g → fs (glslPath ++ ".spv") = none →
      comp g.content = some out →
      LoadShaderModule fs comp now glslPath
        = (Except.ok
            (fsWrite fs (glslPath ++ ".spv") { mtime := now, content := out }, out), 1))
    ∧ (∀ c : FsFile, fs glslPath = some g → fs (glslPath ++ ".spv") = some c →
      c.mtime < g.mtime → comp g.content = some out →
      LoadShaderModule fs comp now glslPath
        = (Except.ok
            (fsWrite fs (glslPath ++ ".spv") { mtime := now, content := out }, out), 1)) := by
  refine ⟨?_, ?_, ?_⟩
  · intro c h1 h2 h3
    have hnot : ¬ (g.mtime > c.mtime) := not_lt.mpr h3
    simp [LoadShaderModule, h1, h2, hnot]
  · intro h1 h2 h3
    simp [LoadShaderModule, recompileAndRead, CompileGlslToSpv, h1, h2, h3, fsWrite]
  · intro c h1 h2 h3 h4
    have hgt : g.mtime > c.mtime := h3
    simp [LoadShaderModule, recompileAndRead, CompileGlslToSpv, h1, h2, h3, h4, hgt, fsWrite]

/-- Witness for `c4_shader_cache`: all three branches at concrete
filesystems — fresh cache (`fsFresh`, returns the cached bytes `[9, 9]`
with zero invocations), missing cache (`fsNoCache`) and stale cache
(`fsStale`), each compiling once to `compStub`'s output `[7, 8]`. -/
theorem c4_shader_cache_witness :
    fsFresh "a" = some { mtime := 3, content := [1, 2] }
    ∧ LoadShaderModule fsFresh compStub 10 "a" = (Except.ok (fsFresh, [9, 9]), 0)
    ∧ LoadShaderModule fsNoCache compStub 10 "b"
        = (Except.ok
            (fsWrite fsNoCache ("b" ++ ".spv") { mtime := 10, content := [7, 8] }, [7, 8]), 1)
    ∧ LoadShaderModule fsStale compStub 10 "c"
        = (Except.ok
            (fsWrite fsStale ("c" ++ ".spv") { mtime := 10, content := [7, 8] }, [7, 8]), 1) :=
  ⟨by decide,
    (c4_shader_cache fsFresh compStub 10 "a" { mtime := 3, content := [1, 2] } [7, 8]).1
      { mtime := 5, content := [9, 9] } (by decide) (by decide) (by decide),
    (c4_shader_cache fsNoCache compStub 10 "b" { mtime := 3, content := [1, 2] } [7, 8]).2.1
      (by decide) (by decide) (by decide),
    (c4_shader_cache fsStale compStub 10 "c" { mtime := 9, content := [1, 2] } [7, 8]).2.2
      { mtime := 5, content := [4] } (by decide) (by decide) (by decide) (by decide)⟩

/-- C8 (confirmed).  When the shader source file is missing,
`Engine::LoadShaderModule` fails — with the code's missing-source failure,
the spec's `SourceNotFound` — before the external compiler is ever invoked
(zero compiler invocations), whether or not a cached `.spv` artifact
exists: with an artifact present the staleness check's
`last_write_time(glslPath)` throws, and with no artifact
`Engine::CompileGlslToSpv` returns `false` at its existence check, which
`LoadShaderModule` turns into a thrown error. -/
theorem c8_source_missing (fs : FS) (comp : List Nat → Option (List Nat))
    (now : Nat) (glslPath : String) (h1 : fs glslPath = none) :
    (∃ e, (LoadShaderModule fs comp now glslPath).1 = Except.error e)
    ∧ (LoadShaderModule fs comp now glslPath).2 = 0 := by
  cases h2 : fs (glslPath ++ ".spv") with
  | none =>
    refine ⟨⟨ShaderErr.compileFailed glslPath, ?_⟩, ?_⟩ <;>
      simp [LoadShaderModule, recompileAndRead, CompileGlslToSpv, h1, h2]
  | some spvF =>
    refine ⟨⟨ShaderErr.fsError, ?_⟩, ?_⟩ <;>
      simp [LoadShaderModule, h1, h2]

/-- Witness for `c8_source_missing` at the concrete filesystem `fsOrphan`,
which has a cached artifact `"m.spv"` but no source `"m"`. -/
theorem c8_source_missing_witness :
    fsOrphan "m" = none
    ∧ ((∃ e, (LoadShaderModule fsOrphan compStub 0 "m").1 = Except.error e)
        ∧ (LoadShaderModule fsOrphan compStub 0 "m").2 = 0) :=
  ⟨by decide, c8_source_missing fsOrphan compStub 0 "m" (by decide)⟩

/-- If some index in the remaining worklist fails, the framebuffer loop
ends in the thrown error. -/
theorem fbGo_err (okRes : Nat → Bool) :
    ∀ (l : List Nat) (created : List Nat), (∃ i ∈ l, okRes i = false) →
      (fbGo okRes created l).1 = Except.error "Failed to create a framebuffer" := by
  intro l
  induction l with
  | nil => intro created h; simp at h
  | cons i rest ih =>
    intro created h
    by_cases hi : okRes i = true
    · obtain ⟨j, hj, hjf⟩ := h
      rcases List.mem_cons.mp hj with rfl | hjr
      · rw [hi] at hjf; cases hjf
      · simpa [fbGo, hi] using ih (created ++ [i]) ⟨j, hjr, hjf⟩
    · simp [fbGo, hi]

/-- C5, counterexample.  The claim: a framebuffer creation failure aborts
the build and releases all framebuffers created earlier.  With two
swapchain images where creation succeeds at index 0 and fails at index 1,
`Engine::InitFramebuffers` does throw, but the created-handle list is `[0]`
and the destroyed-handle list is empty — framebuffer 0 remains allocated,
since the throwing path at line 274 performs no `vkDestroyFramebuffer`.
So the claim, as stated, is false. -/
theorem c5_counterexample :
    initFramebuffers 2 (fun i => decide (i = 0))
      = (Except.error "Failed to create a framebuffer", [0], ([] : List Nat))
    ∧ ([0] : List Nat) ≠ [] :=
  ⟨rfl, by simp⟩

/-- C5, amended.  Any single framebuffer creation failure aborts the whole
build — the error `"Failed to create a framebuffer"` propagates — but the
framebuffers created earlier in that same build are NOT released: the
failure path destroys nothing (the destroyed list is empty in every
outcome). -/
theorem c5_amended_framebuffer_failure (n : Nat) (okRes : Nat → Bool) :
    ((∃ i, i < n ∧ okRes i = false) →
      (initFramebuffers n okRes).1 = Except.error "Failed to create a framebuffer")
    ∧ (initFramebuffers n okRes).2.2 = [] := by
  constructor
  · rintro ⟨i, hi, hf⟩
    have : (fbGo okRes [] (List.range n)).1 = Except.error "Failed to create a framebuffer" :=
      fbGo_err okRes (List.range n) [] ⟨i, List.mem_range.mpr hi, hf⟩
    simpa [initFramebuffers] using this
  · rfl

/-- Witness for `c5_amended_framebuffer_failure`: two images, success at
index 0, failure at index 1. -/
theorem c5_amended_framebuffer_failure_witness :
    ((1 : Nat) < 2 ∧ (fun i => decide (i = 0)) 1 = false)
    ∧ (initFramebuffers 2 (fun i => decide (i = 0))).1
        = Except.error "Failed to create a framebuffer"
    ∧ (initFramebuffers 2 (fun i => decide (i = 0))).2.2 = [] :=
  ⟨by decide,
    (c5_amended_framebuffer_failure 2 (fun i => decide (i = 0))).1 ⟨1, by decide, by decide⟩,
    (c5_amended_framebuffer_failure 2 (fun i => decide (i = 0))).2⟩

/-- When every creation succeeds, the framebuffer loop returns all indices
of its worklist appended to the accumulator. -/
theorem fbGo_ok_all (okRes : Nat → Bool) :
    ∀ (l : List Nat) (created : List Nat), (∀ i ∈ l, okRes i = true) →
      fbGo okRes created l = (Except.ok (created ++ l), created ++ l) := by
  intro l
  induction l with
  | nil => intro created _; simp [fbGo]
  | cons i rest ih =>
    intro created h
    have hi : okRes i = true := h i (List.mem_cons_self i rest)
    have hrest : ∀ j ∈ rest, okRes j = true := fun j hj => h j (List.mem_cons_of_mem i hj)
    simp [fbGo, hi, ih (created ++ [i]) hrest]

/-- C10 (confirmed).  Every `Engine::Draw` cycle performs the lookup
`Framebuffers[swapchainImageIdx]` with no bounds check — the render-pass
begin event always carries `framebuffers.get? acquiredIdx`, whatever the
acquire call produced.  The lookup is in bounds exactly when the index the
acquisition left behind is strictly below the framebuffer count, and
`Engine::InitFramebuffers` sizes `Framebuffers` to exactly
`SwapchainImages.size()` when all creations succeed; when the acquisition
fails and leaves an index at or beyond that count, the lookup is out of
bounds. -/
theorem c10_framebuffer_bounds (s : EngineState) (o : DrawOracle)
    (n : Nat) (okRes : Nat → Bool) :
    DrawEvent.cmdBeginRenderPass (s.framebuffers.get? o.acquiredIdx) o.acquiredIdx
      ∈ drawEvents s o
    ∧ (o.acquiredIdx < s.framebuffers.length →
        (s.framebuffers.get? o.acquiredIdx).isSome = true)
    ∧ (s.framebuffers.length ≤ o.acquiredIdx →
        s.framebuffers.get? o.acquiredIdx = none)
    ∧ ((∀ i, i < n → okRes i = true) →
        initFramebuffers n okRes = (Except.ok (List.range n), List.range n, [])
        ∧ (List.range n).length = n) := by
  refine ⟨?_, ?_, ?_, ?_⟩
  · simp [drawEvents]
  · intro h
    simp [List.get?_eq_getElem?, List.getElem?_eq_getElem h]
  · intro h
    simp [List.get?_eq_getElem?, List.getElem?_eq_none h]
  · intro h
    have hall : ∀ i ∈ List.range n, okRes i = true :=
      fun i hi => h i (List.mem_range.mp hi)
    constructor
    · simp [initFramebuffers, fbGo_ok_all okRes (List.range n) [] hall]
    · simp

/-- Witness for `c10_framebuffer_bounds`: a two-framebuffer state with an
in-bounds acquired index 1, an out-of-bounds acquired index 5, and a fully
successful two-image `InitFramebuffers`. -/
theorem c10_framebuffer_bounds_witness :
    ((({ frameNumber := 0, framebuffers := [5, 6] } : EngineState).framebuffers.get? 1).isSome
      = true)
    ∧ (({ frameNumber := 0, framebuffers := [5, 6] } : EngineState).framebuffers.get? 5 = none)
    ∧ (initFramebuffers 2 (fun _ => true) = (Except.ok (List.range 2), List.range 2, [])
        ∧ (List.range 2).length = 2) :=
  ⟨(c10_framebuffer_bounds { frameNumber := 0, framebuffers := [5, 6] }
      { waitResult := VkResult.success, acquireResult := VkResult.success
        , acquiredIdx := 1, presentResult := VkResult.success } 2 (fun _ => true)).2.1
      (by decide),
   (c10_framebuffer_bounds { frameNumber := 0, framebuffers := [5, 6] }
      { waitResult := VkResult.success, acquireResult := VkResult.timeout
        , acquiredIdx := 5, presentResult := VkResult.success } 2 (fun _ => true)).2.2.1
      (by decide),
   (c10_framebuffer_bounds { frameNumber := 0, framebuffers := [5, 6] }
      { waitResult := VkResult.success, acquireResult := VkResult.success
        , acquiredIdx := 1, presentResult := VkResult.success } 2 (fun _ => true)).2.2.2
      (fun _ _ => rfl)⟩

/-- C6, counterexample.  The claim: when the poll drains a quit signal, the
stop flag is checked before the next `Draw`, so that no `Draw` call begins
after the quit event has been drained.  With the concrete input whose very
first poll batch is `[SDL_QUIT]`, `Engine::Run` still performs exactly one
`Draw()` call — the one in the same iteration, after the drain, at line 441
— before the loop condition is re-tested and the loop exits.  So the claim,
as stated (zero draws after the drain), is false; the run exits cleanly
with one draw. -/
theorem c6_counterexample :
    runLoop [[SDLEvent.quit]] = some 1
    ∧ runLoop [[SDLEvent.quit]] ≠ some 0
    ∧ Exec { initResult := none, eventBatches := [[SDLEvent.quit]], cleanupResult := none }
        = some { exitCode := 0, consoleLog := [], cleanupInvoked := true, drawCalls := some 1 } :=
  ⟨rfl, by decide, rfl⟩

/-- C6, amended.  A drained quit signal clears the `stillRunning` flag,
which is checked at the loop head before the NEXT iteration's `Draw`;
the current iteration's `Draw` still runs after the drain — so a run whose
k-th iteration drains the quit performs exactly k draw calls (one per
iteration, including the quitting one) and then exits; with initialization
and teardown succeeding, teardown runs and the process finishes with exit
code 0. -/
theorem c6_amended_quit_loop (pre : List (List SDLEvent)) (batch : List SDLEvent)
    (rest : List (List SDLEvent))
    (hpre : ∀ b ∈ pre, containsQuit b = false) (hq : containsQuit batch = true) :
    runLoop (pre ++ batch :: rest) = some (pre.length + 1)
    ∧ Exec { initResult := none, eventBatches := pre ++ batch :: rest, cleanupResult := none }
        = some { exitCode := 0, consoleLog := [], cleanupInvoked := true
                 , drawCalls := some (pre.length + 1) } := by
  have key : runLoop (pre ++ batch :: rest) = some (pre.length + 1) := by
    induction pre with
    | nil => simp [runLoop, hq]
    | cons b pre ih =>
      have hb : containsQuit b = false := hpre b (List.mem_cons_self b pre)
      have ih' := ih fun b' hb' => hpre b' (List.mem_cons_of_mem b hb')
      simp [runLoop, hb, ih']
  exact ⟨key, by simp [Exec, key]⟩

/-- Witness for `c6_amended_quit_loop`: one quiet iteration, then an
iteration that drains the quit event — two draw calls in total, exit
code 0, teardown invoked. -/
theorem c6_amended_quit_loop_witness :
    containsQuit [SDLEvent.other] = false
    ∧ containsQuit [SDLEvent.quit] = true
    ∧ runLoop ([[SDLEvent.other]] ++ [SDLEvent.quit] :: []) = some 2
    ∧ Exec { initResult := none, eventBatches := [[SDLEvent.other]] ++ [SDLEvent.quit] :: []
             , cleanupResult := none }
        = some { exitCode := 0, consoleLog := [], cleanupInvoked := true, drawCalls := some 2 } :=
  ⟨by decide, by decide,
    (c6_amended_quit_loop [[SDLEvent.other]] [SDLEvent.quit] [] (by decide) (by decide)).1,
    (c6_amended_quit_loop [[SDLEvent.other]] [SDLEvent.quit] [] (by decide) (by decide)).2⟩

/-- C9 (confirmed).  On a fatal error, `Engine::Exec` prints the
diagnostic message to the console stream (the code's log stream,
`std::cout << e.what()`) and returns exit code 1.  In particular, when
`Initialize()` throws, no teardown of the partially-created state happens —
`Cleanup()` is not invoked at all, and the failing step itself cleaned up
nothing — and the event loop never runs; when `Cleanup()` is the step that
throws, the message is likewise printed and the exit code is 1. -/
theorem c9_fatal_error_exit :
    (∀ (inp : ExecInput) (msg : String), inp.initResult = some msg →
      Exec inp = some { exitCode := 1, consoleLog := [msg]
                        , cleanupInvoked := false, drawCalls := none })
    ∧ (∀ (inp : ExecInput) (msg : String) (k : Nat),
      inp.initResult = none → runLoop inp.eventBatches = some k →
      inp.cleanupResult = some msg →
      Exec inp = some { exitCode := 1, consoleLog := [msg]
                        , cleanupInvoked := true, drawCalls := some k }) := by
  constructor
  · intro inp msg h
    simp [Exec, h]
  · intro inp msg k h1 h2 h3
    simp [Exec, h1, h2, h3]

/-- Witness for `c9_fatal_error_exit`: a failing initialization (message
printed, exit 1, no cleanup) and a failing teardown after a one-iteration
quit run (message printed, exit 1). -/
theorem c9_fatal_error_exit_witness :
    Exec { initResult := some "Failed to create SDL Window", eventBatches := []
           , cleanupResult := none }
      = some { exitCode := 1, consoleLog := ["Failed to create SDL Window"]
               , cleanupInvoked := false, drawCalls := none }
    ∧ Exec { initResult := none, eventBatches := [[SDLEvent.quit]]
             , cleanupResult := some "teardown failed" }
      = some { exitCode := 1, consoleLog := ["teardown failed"]
               , cleanupInvoked := true, drawCalls := some 1 } :=
  ⟨c9_fatal_error_exit.1
      { initResult := some "Failed to create SDL Window", eventBatches := []
        , cleanupResult := none } "Failed to create SDL Window" rfl,
    c9_fatal_error_exit.2
      { initResult := none, eventBatches := [[SDLEvent.quit]]
        , cleanupResult := some "teardown failed" } "teardown failed" 1 rfl rfl rfl⟩

/-- C3, code-bug evidence, evaluated at a fully successful initialization
with 2 swapchain images followed by `Engine::Cleanup`.  The claim (and the
source's own comment at line 316, "Vulkan objects need to be destroyed in
reverse order of creation") requires teardown to destroy every created
handle exactly once in the strict mirror of creation order, for any
completed prefix.  The code does not: `RenderFence`, `PresentSemaphore`,
`RenderSemaphore` and the two shader modules are created but never
destroyed; the destruction sequence is not the reverse of the creation
sequence (e.g. the render pass is destroyed before the framebuffers built
from it); and after a partial initialization prefix `Cleanup` destroys
nothing at all (the `IsInitialized` guard), even though the window and
other resources of the prefix were created. -/
theorem c3_cleanup_leak :
    Res.fence ∈ initOrder 2
    ∧ Res.fence ∉ cleanupOrder true 2
    ∧ Res.presentSem ∉ cleanupOrder true 2
    ∧ Res.renderSem ∉ cleanupOrder true 2
    ∧ Res.shaderModule 0 ∉ cleanupOrder true 2
    ∧ cleanupOrder true 2 ≠ (initOrder 2).reverse
    ∧ cleanupOrder false 2 = []
    ∧ Res.win ∈ initOrder 2 := by
  decide

end VK2
